import Mathlib

/-!
Shallow embedding of the AlUla journey navigator admin dashboard
(`AdminView`, at src/unnamed/part_000) and the tourist auth form
(`TouristPasswordLogin.tsx`), restricted to the state-management logic:
the data fetchers, the assignment reconciler, guide-roster creation,
guide-request triage, admin login and tourist sign-up.

Modelling conventions:
* JavaScript strings are Lean `String`s; a JS falsy check on a string
  (`!s`, `s || d`) is modelled by comparison with the empty string.
* A nullable column or optional field is an `Option`.
* ISO timestamps are epoch milliseconds (`Nat`); the date part of
  `new Date(ms).toISOString()` (i.e. `.split('T')[0]`) is modelled by
  the UTC day index `ms / 86400000` rendered to a string, which is a
  bijection between UTC calendar dates and day numbers because a UTC
  day is exactly 86,400,000 ms.
* Each event handler becomes a pure function from its inputs (component
  state, form fields, and the outcomes of the store calls it issues) to
  a result record holding the list of issued store effects, the new
  component state, and the toast it shows.  Store-call outcomes are
  passed in as oracle arguments (`storeFails`, fresh row ids, auth
  results) because the hosted backend is an external collaborator.
-/

namespace AlUla

/-- Models the JS string-or-default idiom `s || d` (empty string is falsy). -/
def jsOr (s d : String) : String :=
  if s = "" then d else s

/-- Splits a character list at every occurrence of `sep`, keeping empty
segments; the backbone of the JS `String.prototype.split` model.  Never
returns the empty list of segments. -/
def splitChars (sep : Char) : List Char → List (List Char)
  | [] => [[]]
  | c :: cs =>
    match splitChars sep cs with
    | [] => [[]]
    | seg :: segs =>
      if c = sep then [] :: seg :: segs else (c :: seg) :: segs

/-- Models JS `s.split(sep)` for a one-character separator (the only form the
source uses): `"".split(',') = [""]`, separators at the ends yield empty
segments. -/
def jsSplit (s : String) (sep : Char) : List String :=
  (splitChars sep s.toList).map String.mk

/-- Models JS `s.trim()`: strips leading and trailing whitespace. -/
def jsTrim (s : String) : String :=
  String.mk
    (((s.toList.dropWhile Char.isWhitespace).reverse.dropWhile
        Char.isWhitespace).reverse)

/-- Models `o || d` where `o` is a possibly-null / possibly-undefined string. -/
def jsStrOr (o : Option String) (d : String) : String :=
  match o with
  | some s => jsOr s d
  | none => d

/-- Status column of `tour_assignments` rows. -/
inductive AStatus where
  | pending
  | active
  | completed
deriving DecidableEq, Repr

/-- Status of a guide request (`guide_requests.status`). -/
inductive RStatus where
  | pending
  | approved
  | rejected
deriving DecidableEq, Repr

/-- Derived tourist status shown in the dashboard (interface `Tourist`). -/
inductive TStatus where
  | active
  | pending
  | assigned
deriving DecidableEq, Repr

/-- Local view-model assignment record (interface `Assignment` in `AdminView`).
Dates are the strings the code passes around (form text or rendered ISO dates). -/
structure Assignment where
  id : String
  touristId : String
  guideId : String
  tourName : String
  startDate : String
  endDate : String
  status : AStatus
  createdAt : String
deriving DecidableEq, Repr

/-- Payload of the `guide_requests` update issued by `handleRequestResponse`:
`status` and `admin_response` are always present in the object literal
(an undefined `admin_response` is dropped from the serialized payload, hence
`Option`), and `assigned_guide_id` is added only on the approve-with-guide path. -/
structure RequestUpdate where
  status : RStatus
  admin_response : Option String
  assigned_guide_id : Option String
deriving DecidableEq, Repr

/-- Row of the `guides` insert issued by `handleCreateGuide`.  The source
initializes `rating` with the literal `0.0`; the claims only concern its being
zero, so it is carried as a `Nat`. -/
structure GuideInsert where
  guide_id : String
  password : String
  name : String
  email : String
  phone : String
  specializations : List String
  status : String
  rating : Nat
deriving DecidableEq, Repr

/-- Profile row upserted by the tourist sign-up handler. -/
structure ProfileUpsert where
  id : String
  user_type : String
  full_name : String
  phone_number : String
  contact_info : String
deriving DecidableEq, Repr

/-- Store calls (writes, refetches and the notification side call) that the
admin-view handlers can issue, in issue order. -/
inductive StoreEffect where
  | updateAssignmentGuide (assignmentId : String) (guideId : String)
  | insertAssignment (touristId guideId tourName startDate endDate : String)
      (status : AStatus)
  | invokeNotification (touristId guideId tourName startDate endDate : String)
  | insertGuide (g : GuideInsert)
  | updateGuideRequest (requestId : String) (u : RequestUpdate)
  | refetchAssignments
  | refetchGuideRequests
  | refetchGuides
  | refetchTourists
deriving DecidableEq, Repr

/-- Toast shown via `useToast`; `destructive` is the error variant. -/
structure Toast where
  title : String
  description : String
  destructive : Bool
deriving DecidableEq, Repr

/-! ## Time: day arithmetic behind the reassignment insert -/

/-- Milliseconds in one UTC day. -/
def msPerDay : Nat := 24 * 60 * 60 * 1000

/-- UTC day index of an epoch-millisecond timestamp. -/
def epochDay (ms : Nat) : Nat := ms / msPerDay

/-- Models `new Date(ms).toISOString().split('T')[0]`: the UTC calendar date of
`ms`, rendered through the day-index bijection. -/
def isoDate (ms : Nat) : String := toString (epochDay ms)

/-! ## Admin login (`handleLogin`, part_000 lines 416-430) -/

/-- Result of `handleLogin`: the new `isLoggedIn` state, the toast, and the
store effects issued (none: the check is entirely client-side). -/
structure LoginResult where
  isLoggedIn : Bool
  toast : Toast
  effects : List StoreEffect
deriving DecidableEq, Repr

/-- Models `handleLogin`: compares the typed credentials against the fixed
pair; on mismatch `setIsLoggedIn` is not called, so the previous state stays. -/
def handleLogin (prevLoggedIn : Bool) (adminId password : String) : LoginResult :=
  if adminId = "admin" ∧ password = "admin123" then
    { isLoggedIn := true
      toast := ⟨"Login Successful", "Welcome to the Admin Dashboard!", false⟩
      effects := [] }
  else
    { isLoggedIn := prevLoggedIn
      toast := ⟨"Login Failed", "Invalid credentials. Try admin/admin123", true⟩
      effects := [] }

/-! ## Guide creation (`handleCreateGuide`, part_000 lines 518-548) -/

/-- Models the specialization derivation in `handleCreateGuide`:
`newGuideSpecializations ? ....split(',').map(s => s.trim()).filter(s => s) : []`. -/
def deriveSpecializations (s : String) : List String :=
  if s = "" then []
  else ((jsSplit s ',').map jsTrim).filter (fun x => x ≠ "")

/-- Result of `handleCreateGuide`: issued effects and the toast.  On the
validation-failure path no store call is issued. -/
structure CreateGuideResult where
  effects : List StoreEffect
  toast : Toast
deriving DecidableEq, Repr

/-- Models `handleCreateGuide` under a successful insert: validates the five
required fields, derives the specializations, and inserts with `rating` 0. -/
def handleCreateGuide (name email phone gid pw specs st : String) :
    CreateGuideResult :=
  if name = "" ∨ email = "" ∨ phone = "" ∨ gid = "" ∨ pw = "" then
    { effects := []
      toast := ⟨"Error", "Please fill in all required fields", true⟩ }
  else
    { effects :=
        [.insertGuide
          { guide_id := gid, password := pw, name := name, email := email
            phone := phone, specializations := deriveSpecializations specs
            status := st, rating := 0 },
         .refetchGuides]
      toast := ⟨"Success", "Guide created successfully!", false⟩ }

/-! ## Tourist fetch and status derivation (`fetchTourists`, part_000 lines 148-235) -/

/-- Row returned by the assignment read inside `fetchTourists`:
`select tourist_id, status, guide_id, guides(name)`; `guideName` is the joined
`guides?.name`, null when the join finds no guide. -/
structure AssignmentRow where
  tourist_id : String
  status : AStatus
  guide_id : String
  guideName : Option String
deriving DecidableEq, Repr

/-- Profile row consumed by `fetchTourists` (nullable text columns). -/
structure Profile where
  id : String
  full_name : Option String
  contact_info : Option String
  phone_number : Option String
  nationality : Option String
deriving DecidableEq, Repr

/-- Tourist view model (interface `Tourist` in `AdminView`). -/
structure Tourist where
  id : String
  name : String
  email : String
  phone : String
  nationality : String
  status : TStatus
  assignedGuide : String
deriving DecidableEq, Repr

/-- Value stored in the `assignmentMap` accumulator of `fetchTourists`. -/
structure AssignmentInfo where
  status : AStatus
  assignedGuide : String
deriving DecidableEq, Repr

/-- Entry built from one assignment row:
`{ status: assignment.status, assignedGuide: assignment.guides?.name || 'Unknown Guide' }`. -/
def assignmentInfoOfRow (r : AssignmentRow) : AssignmentInfo :=
  { status := r.status, assignedGuide := jsStrOr r.guideName "Unknown Guide" }

/-- Models the `.in('status', ['pending', 'active'])` filter of the
assignment read inside `fetchTourists`, applied to the stored table. -/
def fetchedAssignmentRows (db : List AssignmentRow) : List AssignmentRow :=
  db.filter (fun r => r.status = AStatus.pending ∨ r.status = AStatus.active)

/-- Models the `reduce` that builds `assignmentMap`: a left fold over the
fetched rows in which `acc[assignment.tourist_id] = {...}` makes a later row
overwrite an earlier row with the same `tourist_id`. -/
def assignmentMap (rows : List AssignmentRow) : String → Option AssignmentInfo :=
  rows.foldl
    (fun acc r => fun t =>
      if t = r.tourist_id then some (assignmentInfoOfRow r) else acc t)
    (fun _ => none)

/-- Specification-side lookup: the LAST row of the list whose `tourist_id` is
`t`, if any.  Related to `assignmentMap` by `assignmentMap_apply` below. -/
def lastMatch (t : String) : List AssignmentRow → Option AssignmentRow
  | [] => none
  | r :: rs =>
    match lastMatch t rs with
    | some x => some x
    | none => if r.tourist_id = t then some r else none

/-- Models the per-profile body of `formattedTourists` in `fetchTourists`:
derives the status from `assignmentMap[profile.id]?.status` and fills the
display fields with their JS `||` defaults. -/
def formatTourist (amap : String → Option AssignmentInfo) (p : Profile) :
    Tourist :=
  let assignmentStatus : Option AStatus := (amap p.id).map AssignmentInfo.status
  let status : TStatus :=
    if assignmentStatus = some AStatus.active then TStatus.assigned
    else if assignmentStatus = some AStatus.pending then TStatus.pending
    else TStatus.active
  { id := p.id
    name := jsStrOr p.full_name "Unnamed Tourist"
    email := jsStrOr p.contact_info ""
    phone := jsOr (jsStrOr p.phone_number "") (jsStrOr p.contact_info "")
    nationality := jsStrOr p.nationality "Not specified"
    status := status
    assignedGuide := jsStrOr ((amap p.id).map AssignmentInfo.assignedGuide) "" }

/-- Models the data transformation of `fetchTourists`: the tourist-profile
read (already filtered to `user_type = 'tourist'` by the query), joined
against the status-filtered assignment rows through `assignmentMap`. -/
def fetchTourists (profiles : List Profile) (db : List AssignmentRow) :
    List Tourist :=
  profiles.map (formatTourist (assignmentMap (fetchedAssignmentRows db)))

/-! ## Assignment reconciler: reassignment (`handleReassignGuide`, part_000
lines 672-754) -/

/-- Inputs of `handleReassignGuide`: the component state it reads, the call
time, and the row id the store mints if the insert branch runs. -/
structure ReassignInput where
  assignments : List Assignment
  reassignmentTouristId : String
  reassignmentNewGuideId : String
  nowMs : Nat
  freshId : String
deriving DecidableEq, Repr

/-- Result of `handleReassignGuide`: issued effects, new local assignment
list, dialog state after the call, and the toast. -/
structure ReassignResult where
  effects : List StoreEffect
  assignments : List Assignment
  dialogOpen : Bool
  toast : Toast
deriving DecidableEq, Repr

/-- Models `handleReassignGuide`.  `storeFails` is the outcome oracle of the
single store write the handler issues: on failure the catch block shows the
error toast and no local mutation or refetch happens.  The found branch
issues `.update({ guide_id }).eq('id', existing.id)` — an update whose payload
holds only `guide_id` — and patches the same-id local row in place; the
not-found branch inserts the hard-coded default tour with a today-to-
today-plus-7-days range and appends the returned row. -/
def handleReassignGuide (inp : ReassignInput) (storeFails : Bool) :
    ReassignResult :=
  if inp.reassignmentNewGuideId = "" ∨ inp.reassignmentTouristId = "" then
    { effects := []
      assignments := inp.assignments
      dialogOpen := true
      toast := ⟨"Error", "Please select a new guide", true⟩ }
  else
    match inp.assignments.find?
        (fun a => a.touristId = inp.reassignmentTouristId) with
    | some existing =>
      if storeFails then
        { effects :=
            [.updateAssignmentGuide existing.id inp.reassignmentNewGuideId]
          assignments := inp.assignments
          dialogOpen := true
          toast := ⟨"Error", "Failed to assign guide", true⟩ }
      else
        { effects :=
            [.updateAssignmentGuide existing.id inp.reassignmentNewGuideId,
             .refetchAssignments, .refetchGuideRequests]
          assignments := inp.assignments.map (fun a =>
            if a.id = existing.id
            then { a with guideId := inp.reassignmentNewGuideId }
            else a)
          dialogOpen := false
          toast := ⟨"Success", "Tour guide assigned successfully!", false⟩ }
    | none =>
      let startD := isoDate inp.nowMs
      let endD := isoDate (inp.nowMs + 7 * 24 * 60 * 60 * 1000)
      if storeFails then
        { effects :=
            [.insertAssignment inp.reassignmentTouristId
              inp.reassignmentNewGuideId "AlUla Heritage Tour"
              startD endD AStatus.active]
          assignments := inp.assignments
          dialogOpen := true
          toast := ⟨"Error", "Failed to assign guide", true⟩ }
      else
        { effects :=
            [.insertAssignment inp.reassignmentTouristId
              inp.reassignmentNewGuideId "AlUla Heritage Tour"
              startD endD AStatus.active,
             .refetchAssignments, .refetchGuideRequests]
          assignments := inp.assignments ++
            [{ id := inp.freshId
               touristId := inp.reassignmentTouristId
               guideId := inp.reassignmentNewGuideId
               tourName := "AlUla Heritage Tour"
               startDate := startD
               endDate := endD
               status := AStatus.active
               createdAt := toString inp.nowMs }]
          dialogOpen := false
          toast := ⟨"Success", "Tour guide assigned successfully!", false⟩ }

/-! ## Assignment creation (`handleAssignGuide`, part_000 lines 432-508) -/

/-- Form fields read by `handleAssignGuide`. -/
structure AssignForm where
  selectedTourist : String
  selectedGuide : String
  tourName : String
  startDate : String
  endDate : String
deriving DecidableEq, Repr

/-- Inputs of `handleAssignGuide`: the form, the current local assignment
list, the call time, and the row id the store mints on a successful insert. -/
structure AssignInput where
  form : AssignForm
  assignments : List Assignment
  nowMs : Nat
  freshId : String
deriving DecidableEq, Repr

/-- Result of `handleAssignGuide`: issued effects (in issue order), the new
assignment list, the form state after the call, and the toast. -/
structure AssignResult where
  effects : List StoreEffect
  assignments : List Assignment
  form : AssignForm
  toast : Toast
deriving DecidableEq, Repr

/-- The cleared form (`setSelectedTourist('')` etc. after a success). -/
def emptyAssignForm : AssignForm :=
  { selectedTourist := "", selectedGuide := "", tourName := ""
    startDate := "", endDate := "" }

/-- Models `handleAssignGuide`.  `insertFails` is the outcome oracle of the
assignment insert; `notifyFails` is the outcome of the
`send-assignment-notification` function call, which the source wraps in its
own try/catch whose catch only logs — so the result genuinely does not
depend on it. -/
def handleAssignGuide (inp : AssignInput) (insertFails notifyFails : Bool) :
    AssignResult :=
  if inp.form.selectedTourist = "" ∨ inp.form.selectedGuide = "" ∨
      inp.form.tourName = "" ∨ inp.form.startDate = "" ∨
      inp.form.endDate = "" then
    { effects := []
      assignments := inp.assignments
      form := inp.form
      toast := ⟨"Error", "Please fill in all fields", true⟩ }
  else
    let ins : StoreEffect :=
      .insertAssignment inp.form.selectedTourist inp.form.selectedGuide
        inp.form.tourName inp.form.startDate inp.form.endDate AStatus.active
    if insertFails then
      { effects := [ins]
        assignments := inp.assignments
        form := inp.form
        toast := ⟨"Error", "Failed to create assignment", true⟩ }
    else
      { effects :=
          [ins,
           .invokeNotification inp.form.selectedTourist inp.form.selectedGuide
             inp.form.tourName inp.form.startDate inp.form.endDate]
        assignments := inp.assignments ++
          [{ id := inp.freshId
             touristId := inp.form.selectedTourist
             guideId := inp.form.selectedGuide
             tourName := inp.form.tourName
             startDate := inp.form.startDate
             endDate := inp.form.endDate
             status := AStatus.active
             createdAt := toString inp.nowMs }]
        form := emptyAssignForm
        toast := ⟨"Assignment Created",
          "Tour guide assigned successfully and notifications sent!", false⟩ }

/-! ## Guide request triage (`handleRequestResponse`, part_000 lines 627-660) -/

/-- Stored `guide_requests` row, restricted to the columns the update touches. -/
structure GuideRequestRow where
  id : String
  status : RStatus
  assigned_guide_id : Option String
  admin_response : Option String
deriving DecidableEq, Repr

/-- Models the `updateData` object built by `handleRequestResponse`:
`{ status, admin_response: response }`, plus `assigned_guide_id = guideId`
only when `status === 'approved' && guideId` (JS truthiness: `guideId`
must be present and non-empty). -/
def requestUpdateData (status : RStatus) (guideId response : Option String) :
    RequestUpdate :=
  { status := status
    admin_response := response
    assigned_guide_id :=
      if status = RStatus.approved then
        match guideId with
        | some g => if g = "" then none else some g
        | none => none
      else none }

/-- Applies a `guide_requests` update payload to a stored row: a column
absent from the payload keeps its prior value. -/
def applyRequestUpdate (u : RequestUpdate) (row : GuideRequestRow) :
    GuideRequestRow :=
  { row with
    status := u.status
    admin_response :=
      match u.admin_response with
      | some s => some s
      | none => row.admin_response
    assigned_guide_id :=
      match u.assigned_guide_id with
      | some g => some g
      | none => row.assigned_guide_id }

/-- Models `handleRequestResponse` under a successful update: the issued
effects, in issue order (the update, then the two refetches). -/
def handleRequestResponse (requestId : String) (status : RStatus)
    (guideId response : Option String) : List StoreEffect :=
  [.updateGuideRequest requestId (requestUpdateData status guideId response),
   .refetchGuideRequests, .refetchGuides]

/-! ## Tourist sign-up (`handleSignUp`, TouristPasswordLogin.tsx lines
162-230, with `validateInput`, lines 57-126) -/

/-- Tab / method of the tourist auth form. -/
inductive AuthMethod where
  | phone
  | email
deriving DecidableEq, Repr

/-- Slice of `LoginState` read by `validateInput` and `handleSignUp`. -/
structure SignUpState where
  identifier : String
  password : String
  confirmPassword : String
  fullName : String
  phoneNumber : String
  method : AuthMethod
deriving DecidableEq, Repr

/-- Models the test of the literal regex of `validateInput`
(a caret, then one-plus chars outside whitespace and at-sign, an at-sign,
one-plus such chars, a dot, one-plus such chars, then a dollar): the string
splits as local at-sign rest, where rest holds a dot neither first nor last,
and no character anywhere is whitespace or a second at-sign. -/
def emailRegexTest (s : String) : Bool :=
  match splitChars '@' s.toList with
  | [a, b] =>
    a ≠ [] ∧ a.all (fun c => ¬ c.isWhitespace) ∧
    b.all (fun c => ¬ c.isWhitespace) ∧
    ((b.drop 1).dropLast.contains '.')
  | _ => false

/-- Models `validateInput` (sign-up and sign-in share it; `isSignUp` selects
the extra checks).  JS `string.length` counts UTF-16 units and Lean counts
code points; they agree on the Basic Multilingual Plane. -/
def validateInput (isSignUp : Bool) (st : SignUpState) : Bool :=
  if jsTrim st.identifier = "" ∨ jsTrim st.password = "" then false
  else if isSignUp ∧ jsTrim st.fullName = "" then false
  else if isSignUp ∧ st.method = AuthMethod.phone ∧ jsTrim st.identifier = ""
    then false
  else if st.method = AuthMethod.email ∧ ¬ emailRegexTest st.identifier
    then false
  else if st.method = AuthMethod.phone ∧
      (st.identifier.toList.filter Char.isDigit).length < 9 then false
  else if isSignUp ∧ st.password ≠ st.confirmPassword then false
  else if st.password.length < 6 then false
  else true

/-- Outcome of a `supabase.auth.signUp` call: an error, or a response whose
`user` (its id) and `session` may each be present or absent. -/
inductive SignUpAuthResult where
  | err (msg : String)
  | ok (userId : Option String) (hasSession : Bool)
deriving DecidableEq, Repr

/-- Effects the sign-up handler can issue against the backend. -/
inductive SignUpEffect where
  | authSignUp (email password userType fullName phoneNumber : String)
  | profileUpsert (p : ProfileUpsert)
deriving DecidableEq, Repr

/-- Observable outcome of `handleSignUp` for the embedding. -/
inductive SignUpOutcome where
  | invalid
  | authError (msg : String)
  | loginSuccess (userId : String)
  | checkEmail
deriving DecidableEq, Repr

/-- Result of `handleSignUp`: issued effects and the outcome. -/
structure SignUpResult where
  effects : List SignUpEffect
  outcome : SignUpOutcome
deriving DecidableEq, Repr

/-- Models `handleSignUp`.  `auth` is the outcome oracle of the
`supabase.auth.signUp` call and `upsertFails` the outcome of the profile
upsert; the source wraps the upsert in try/catch blocks whose failure paths
only `console.error`, so the result genuinely does not depend on
`upsertFails` — sign-up still completes with `onLoginSuccess`. -/
def handleSignUp (st : SignUpState) (auth : SignUpAuthResult)
    (upsertFails : Bool) : SignUpResult :=
  if ¬ validateInput true st then
    { effects := [], outcome := SignUpOutcome.invalid }
  else
    let signUpEff : SignUpEffect :=
      .authSignUp st.identifier st.password "tourist"
        (jsTrim st.fullName) (jsTrim st.phoneNumber)
    match auth with
    | .err m => { effects := [signUpEff], outcome := SignUpOutcome.authError m }
    | .ok userId hasSession =>
      match userId, hasSession with
      | some uid, true =>
        let p : ProfileUpsert :=
          { id := uid
            user_type := "tourist"
            full_name := jsTrim st.fullName
            phone_number := jsTrim st.phoneNumber
            contact_info :=
              if st.method = AuthMethod.phone then st.identifier
              else st.phoneNumber }
        { effects := [signUpEff, .profileUpsert p]
          outcome := SignUpOutcome.loginSuccess uid }
      | _, _ =>
        { effects := [signUpEff], outcome := SignUpOutcome.checkEmail }

/-! ## Helper lemmas -/

/-- The empty default is a neutral element of the JS string-or idiom. -/
theorem jsOr_empty_right (s : String) : jsOr s "" = s := by
  unfold jsOr
  by_cases h : s = "" <;> simp [h]

/-- The branch of `deriveSpecializations` on the empty input agrees with the
split-trim-filter pipeline, so the derivation equals the pipeline on every
input. -/
theorem deriveSpecializations_eq (s : String) :
    deriveSpecializations s = ((jsSplit s ',').map jsTrim).filter
      (fun x => x ≠ "") := by
  unfold deriveSpecializations
  by_cases h : s = ""
  · subst h
    decide
  · simp [h]

/-- Generalized-accumulator form of the lookup law of the fold that builds
`assignmentMap`: the fold keeps, for each tourist id, the entry of the last
matching row and otherwise falls through to the accumulator. -/
theorem assignmentMap_foldl_apply (rows : List AssignmentRow)
    (acc : String → Option AssignmentInfo) (t : String) :
    (rows.foldl
      (fun acc r => fun u =>
        if u = r.tourist_id then some (assignmentInfoOfRow r) else acc u)
      acc) t =
    (match lastMatch t rows with
     | some r => some (assignmentInfoOfRow r)
     | none => acc t) := by
  induction rows generalizing acc with
  | nil => rfl
  | cons r rs ih =>
    simp only [List.foldl_cons, lastMatch]
    rw [ih]
    cases h : lastMatch t rs with
    | some x => rfl
    | none =>
      by_cases hc : t = r.tourist_id
      · subst hc
        simp
      · have hc2 : ¬ r.tourist_id = t := fun h2 => hc h2.symm
        simp [hc, hc2]

/-- The `assignmentMap` lookup for a tourist id is the entry built from the
last fetched row with that id. -/
theorem assignmentMap_apply (rows : List AssignmentRow) (t : String) :
    assignmentMap rows t = (lastMatch t rows).map assignmentInfoOfRow := by
  unfold assignmentMap
  rw [assignmentMap_foldl_apply]
  cases lastMatch t rows <;> rfl

/-! ## Claim theorems -/

/-- C7: for every comma-delimited specializations input, `handleCreateGuide`
derives the specialization set by splitting on commas, trimming each entry and
discarding empty entries, and inserts the new guide with rating initialized
to 0. -/
theorem handleCreateGuide_specializations
    (name email phone gid pw specs st : String)
    (h1 : name ≠ "") (h2 : email ≠ "") (h3 : phone ≠ "") (h4 : gid ≠ "")
    (h5 : pw ≠ "") :
    ∃ g : GuideInsert,
      (handleCreateGuide name email phone gid pw specs st).effects =
        [StoreEffect.insertGuide g, StoreEffect.refetchGuides] ∧
      g.specializations =
        ((jsSplit specs ',').map jsTrim).filter (fun x => x ≠ "") ∧
      g.rating = 0 := by
  have hcond : ¬ (name = "" ∨ email = "" ∨ phone = "" ∨ gid = "" ∨ pw = "") := by
    simp [h1, h2, h3, h4, h5]
  refine ⟨{ guide_id := gid, password := pw, name := name, email := email
            phone := phone, specializations := deriveSpecializations specs
            status := st, rating := 0 }, ?_, ?_, rfl⟩
  · unfold handleCreateGuide
    rw [if_neg hcond]
  · exact deriveSpecializations_eq specs

/-- Witness for C7 at the concrete input of the spec: the specializations
input "Desert, Night Tour, " yields exactly ["Desert", "Night Tour"]. -/
theorem handleCreateGuide_specializations_witness :
    (∃ g : GuideInsert,
      (handleCreateGuide "Aisha" "a@b.c" "0501234567" "g1" "pw"
          "Desert, Night Tour, " "available").effects =
        [StoreEffect.insertGuide g, StoreEffect.refetchGuides] ∧
      g.specializations =
        ((jsSplit "Desert, Night Tour, " ',').map jsTrim).filter
          (fun x => x ≠ "") ∧
      g.rating = 0) ∧
    ((jsSplit "Desert, Night Tour, " ',').map jsTrim).filter (fun x => x ≠ "") =
      ["Desert", "Night Tour"] :=
  ⟨handleCreateGuide_specializations "Aisha" "a@b.c" "0501234567" "g1" "pw"
      "Desert, Night Tour, " "available"
      (by decide) (by decide) (by decide) (by decide) (by decide),
   by decide⟩

/-- C8: admin login succeeds and sets the logged-in flag exactly for the fixed
pair admin / admin123; the check issues no store effect (entirely
client-side), and any other pair leaves the logged-out state unchanged and
shows a destructive failure toast. -/
theorem handleLogin_fixed_credentials (adminId password : String) :
    ((handleLogin false adminId password).isLoggedIn = true ↔
      (adminId = "admin" ∧ password = "admin123")) ∧
    (handleLogin false adminId password).effects = [] ∧
    (¬ (adminId = "admin" ∧ password = "admin123") →
      (handleLogin false adminId password).isLoggedIn = false ∧
      (handleLogin false adminId password).toast.destructive = true) := by
  unfold handleLogin
  by_cases h : adminId = "admin" ∧ password = "admin123" <;> simp [h]

/-- Witness for C8 at a concrete wrong credential pair. -/
theorem handleLogin_fixed_credentials_witness :
    ((handleLogin false "guest" "pw").isLoggedIn = true ↔
      ("guest" = "admin" ∧ "pw" = "admin123")) ∧
    (handleLogin false "guest" "pw").effects = [] ∧
    (¬ ("guest" = "admin" ∧ "pw" = "admin123") →
      (handleLogin false "guest" "pw").isLoggedIn = false ∧
      (handleLogin false "guest" "pw").toast.destructive = true) :=
  handleLogin_fixed_credentials "guest" "pw"

/-- C4: responding to a guide request with status rejected issues an update
that sets the status to rejected (plus the response text) and, applied to the
stored row, leaves assigned_guide_id at its prior value whatever that was;
the payload carries an assigned-guide reference only when approving with a
non-empty guide id. -/
theorem handleRequestResponse_rejected (requestId : String)
    (guideId response : Option String) (row : GuideRequestRow) :
    handleRequestResponse requestId RStatus.rejected guideId response =
      [StoreEffect.updateGuideRequest requestId
        (requestUpdateData RStatus.rejected guideId response),
       StoreEffect.refetchGuideRequests, StoreEffect.refetchGuides] ∧
    (applyRequestUpdate (requestUpdateData RStatus.rejected guideId response)
        row).status = RStatus.rejected ∧
    (applyRequestUpdate (requestUpdateData RStatus.rejected guideId response)
        row).assigned_guide_id = row.assigned_guide_id ∧
    (∀ (st : RStatus) (gid resp : Option String),
      (requestUpdateData st gid resp).assigned_guide_id ≠ none →
      st = RStatus.approved ∧
        ∃ g, gid = some g ∧ g ≠ "" ∧
          (requestUpdateData st gid resp).assigned_guide_id = some g) := by
  refine ⟨rfl, ?_, ?_, ?_⟩
  · simp [applyRequestUpdate, requestUpdateData]
  · simp [applyRequestUpdate, requestUpdateData]
  · intro st gid resp h
    unfold requestUpdateData at h ⊢
    by_cases hst : st = RStatus.approved
    · subst hst
      cases gid with
      | none => simp at h
      | some g =>
        by_cases hg : g = "" <;> simp [hg] at h ⊢
    · simp [hst] at h

/-- Witness for C4 at a concrete request whose prior assigned_guide_id is
set: rejecting keeps it. -/
theorem handleRequestResponse_rejected_witness :
    handleRequestResponse "r1" RStatus.rejected (some "g9") (some "done") =
      [StoreEffect.updateGuideRequest "r1"
        (requestUpdateData RStatus.rejected (some "g9") (some "done")),
       StoreEffect.refetchGuideRequests, StoreEffect.refetchGuides] ∧
    (applyRequestUpdate
        (requestUpdateData RStatus.rejected (some "g9") (some "done"))
        ⟨"r1", RStatus.pending, some "gOld", none⟩).status = RStatus.rejected ∧
    (applyRequestUpdate
        (requestUpdateData RStatus.rejected (some "g9") (some "done"))
        ⟨"r1", RStatus.pending, some "gOld", none⟩).assigned_guide_id =
      (⟨"r1", RStatus.pending, some "gOld", none⟩ :
        GuideRequestRow).assigned_guide_id ∧
    (∀ (st : RStatus) (gid resp : Option String),
      (requestUpdateData st gid resp).assigned_guide_id ≠ none →
      st = RStatus.approved ∧
        ∃ g, gid = some g ∧ g ≠ "" ∧
          (requestUpdateData st gid resp).assigned_guide_id = some g) :=
  handleRequestResponse_rejected "r1" (some "g9") (some "done")
    ⟨"r1", RStatus.pending, some "gOld", none⟩

/-- C5: with any of the five assignment-form fields empty, `handleAssignGuide`
shows the destructive validation toast and aborts before issuing any store
call, leaving the local assignment list and the form fields unchanged. -/
theorem handleAssignGuide_validation_aborts (inp : AssignInput)
    (insertFails notifyFails : Bool)
    (h : inp.form.selectedTourist = "" ∨ inp.form.selectedGuide = "" ∨
      inp.form.tourName = "" ∨ inp.form.startDate = "" ∨
      inp.form.endDate = "") :
    (handleAssignGuide inp insertFails notifyFails).effects = [] ∧
    (handleAssignGuide inp insertFails notifyFails).assignments =
      inp.assignments ∧
    (handleAssignGuide inp insertFails notifyFails).form = inp.form ∧
    (handleAssignGuide inp insertFails notifyFails).toast =
      ⟨"Error", "Please fill in all fields", true⟩ := by
  have hres : handleAssignGuide inp insertFails notifyFails =
      { effects := []
        assignments := inp.assignments
        form := inp.form
        toast := ⟨"Error", "Please fill in all fields", true⟩ } := by
    unfold handleAssignGuide
    rw [if_pos h]
  rw [hres]
  exact ⟨rfl, rfl, rfl, rfl⟩

/-- Witness for C5 at a concrete form whose tour-name field is empty. -/
theorem handleAssignGuide_validation_aborts_witness :
    (handleAssignGuide
        { form := ⟨"t1", "g1", "", "2024-01-01", "2024-01-08"⟩
          assignments := [], nowMs := 0, freshId := "F" } true false).effects =
      [] ∧
    (handleAssignGuide
        { form := ⟨"t1", "g1", "", "2024-01-01", "2024-01-08"⟩
          assignments := [], nowMs := 0, freshId := "F" } true false).assignments
      = ([] : List Assignment) ∧
    (handleAssignGuide
        { form := ⟨"t1", "g1", "", "2024-01-01", "2024-01-08"⟩
          assignments := [], nowMs := 0, freshId := "F" } true false).form =
      ⟨"t1", "g1", "", "2024-01-01", "2024-01-08"⟩ ∧
    (handleAssignGuide
        { form := ⟨"t1", "g1", "", "2024-01-01", "2024-01-08"⟩
          assignments := [], nowMs := 0, freshId := "F" } true false).toast =
      ⟨"Error", "Please fill in all fields", true⟩ :=
  handleAssignGuide_validation_aborts
    { form := ⟨"t1", "g1", "", "2024-01-01", "2024-01-08"⟩
      assignments := [], nowMs := 0, freshId := "F" } true false
    (by decide)

/-- C6: when the assignment insert succeeds and the notification call fails,
the failure is swallowed: `handleAssignGuide` still shows the success toast,
appends the new active assignment for the selected tourist and guide, clears
the form, and its entire result equals the result of a run whose notification
succeeded — no error is surfaced for the notification. -/
theorem handleAssignGuide_notification_swallowed (inp : AssignInput)
    (h1 : inp.form.selectedTourist ≠ "") (h2 : inp.form.selectedGuide ≠ "")
    (h3 : inp.form.tourName ≠ "") (h4 : inp.form.startDate ≠ "")
    (h5 : inp.form.endDate ≠ "") :
    (handleAssignGuide inp false true).toast =
      ⟨"Assignment Created",
        "Tour guide assigned successfully and notifications sent!", false⟩ ∧
    (handleAssignGuide inp false true).toast.destructive = false ∧
    (∃ a : Assignment,
      (handleAssignGuide inp false true).assignments =
        inp.assignments ++ [a] ∧
      a.status = AStatus.active ∧
      a.touristId = inp.form.selectedTourist ∧
      a.guideId = inp.form.selectedGuide) ∧
    (handleAssignGuide inp false true).form = emptyAssignForm ∧
    handleAssignGuide inp false true = handleAssignGuide inp false false := by
  have hcond : ¬ (inp.form.selectedTourist = "" ∨ inp.form.selectedGuide = "" ∨
      inp.form.tourName = "" ∨ inp.form.startDate = "" ∨
      inp.form.endDate = "") := by
    simp [h1, h2, h3, h4, h5]
  constructor
  · unfold handleAssignGuide
    rw [if_neg hcond]
    rfl
  constructor
  · unfold handleAssignGuide
    rw [if_neg hcond]
    rfl
  constructor
  · refine ⟨{ id := inp.freshId, touristId := inp.form.selectedTourist
              guideId := inp.form.selectedGuide, tourName := inp.form.tourName
              startDate := inp.form.startDate, endDate := inp.form.endDate
              status := AStatus.active, createdAt := toString inp.nowMs },
      ?_, rfl, rfl, rfl⟩
    unfold handleAssignGuide
    rw [if_neg hcond]
    rfl
  constructor
  · unfold handleAssignGuide
    rw [if_neg hcond]
    rfl
  · unfold handleAssignGuide
    rw [if_neg hcond]

/-- Witness for C6 at a concrete filled form with a failing notification. -/
theorem handleAssignGuide_notification_swallowed_witness :
    (handleAssignGuide
        { form := ⟨"t1", "g1", "Oasis Walk", "2024-01-01", "2024-01-08"⟩
          assignments := [], nowMs := 0, freshId := "F" } false true).toast =
      ⟨"Assignment Created",
        "Tour guide assigned successfully and notifications sent!", false⟩ ∧
    (handleAssignGuide
        { form := ⟨"t1", "g1", "Oasis Walk", "2024-01-01", "2024-01-08"⟩
          assignments := [], nowMs := 0, freshId := "F" } false
        true).toast.destructive = false ∧
    (∃ a : Assignment,
      (handleAssignGuide
          { form := ⟨"t1", "g1", "Oasis Walk", "2024-01-01", "2024-01-08"⟩
            assignments := [], nowMs := 0, freshId := "F" } false
          true).assignments = ([] : List Assignment) ++ [a] ∧
      a.status = AStatus.active ∧
      a.touristId = "t1" ∧
      a.guideId = "g1") ∧
    (handleAssignGuide
        { form := ⟨"t1", "g1", "Oasis Walk", "2024-01-01", "2024-01-08"⟩
          assignments := [], nowMs := 0, freshId := "F" } false true).form =
      emptyAssignForm ∧
    handleAssignGuide
        { form := ⟨"t1", "g1", "Oasis Walk", "2024-01-01", "2024-01-08"⟩
          assignments := [], nowMs := 0, freshId := "F" } false true =
      handleAssignGuide
        { form := ⟨"t1", "g1", "Oasis Walk", "2024-01-01", "2024-01-08"⟩
          assignments := [], nowMs := 0, freshId := "F" } false false :=
  handleAssignGuide_notification_swallowed
    { form := ⟨"t1", "g1", "Oasis Walk", "2024-01-01", "2024-01-08"⟩
      assignments := [], nowMs := 0, freshId := "F" }
    (by decide) (by decide) (by decide) (by decide) (by decide)

/-- C1: for a tourist with an existing assignment in the local list (whose
row ids, being database primary keys, are distinct), `handleReassignGuide`
issues one update whose payload sets only guide_id on that row, and the local
list is patched in place: the found assignment keeps its id, tour name, start
and end dates, status (and tourist and creation time) while guideId becomes
the new guide id, and every other assignment is unchanged. -/
theorem handleReassignGuide_existing_frame
    (inp : ReassignInput) (existing : Assignment)
    (hg : inp.reassignmentNewGuideId ≠ "")
    (ht : inp.reassignmentTouristId ≠ "")
    (hfind : inp.assignments.find?
        (fun a => a.touristId = inp.reassignmentTouristId) = some existing)
    (hnodup : (inp.assignments.map Assignment.id).Nodup) :
    (handleReassignGuide inp false).effects =
      [StoreEffect.updateAssignmentGuide existing.id inp.reassignmentNewGuideId,
       StoreEffect.refetchAssignments, StoreEffect.refetchGuideRequests] ∧
    List.Forall₂ (fun a b : Assignment =>
      if a = existing then
        b.id = a.id ∧ b.touristId = a.touristId ∧
        b.guideId = inp.reassignmentNewGuideId ∧ b.tourName = a.tourName ∧
        b.startDate = a.startDate ∧ b.endDate = a.endDate ∧
        b.status = a.status ∧ b.createdAt = a.createdAt
      else b = a)
      inp.assignments (handleReassignGuide inp false).assignments := by
  have hcond : ¬ (inp.reassignmentNewGuideId = "" ∨
      inp.reassignmentTouristId = "") := by
    simp [hg, ht]
  have hres : handleReassignGuide inp false =
      { effects :=
          [StoreEffect.updateAssignmentGuide existing.id
            inp.reassignmentNewGuideId,
           StoreEffect.refetchAssignments, StoreEffect.refetchGuideRequests]
        assignments := inp.assignments.map (fun a =>
          if a.id = existing.id
          then { a with guideId := inp.reassignmentNewGuideId }
          else a)
        dialogOpen := false
        toast := ⟨"Success", "Tour guide assigned successfully!", false⟩ } := by
    unfold handleReassignGuide
    rw [if_neg hcond, hfind]
    rfl
  rw [hres]
  refine ⟨rfl, ?_⟩
  have hmem : existing ∈ inp.assignments := List.mem_of_find?_eq_some hfind
  rw [List.forall₂_map_right_iff, List.forall₂_same]
  intro a ha
  by_cases hae : a = existing
  · subst hae
    simp
  · have hid : ¬ a.id = existing.id := fun h =>
      hae (List.inj_on_of_nodup_map hnodup ha hmem h)
    simp [hae, hid]

/-- Witness for C1: a two-assignment list where tourist t1 owns the first
row; reassigning t1 to g9 updates only that row. -/
theorem handleReassignGuide_existing_frame_witness :
    (handleReassignGuide
        { assignments :=
            [⟨"A1", "t1", "g1", "Old Tour", "2024-01-01", "2024-01-05",
              AStatus.active, "c1"⟩,
             ⟨"A2", "t2", "g2", "Tour Two", "2024-02-01", "2024-02-05",
              AStatus.pending, "c2"⟩]
          reassignmentTouristId := "t1", reassignmentNewGuideId := "g9"
          nowMs := 0, freshId := "F" } false).effects =
      [StoreEffect.updateAssignmentGuide
        (Assignment.id ⟨"A1", "t1", "g1", "Old Tour", "2024-01-01",
          "2024-01-05", AStatus.active, "c1"⟩) "g9",
       StoreEffect.refetchAssignments, StoreEffect.refetchGuideRequests] ∧
    List.Forall₂ (fun a b : Assignment =>
      if a = ⟨"A1", "t1", "g1", "Old Tour", "2024-01-01", "2024-01-05",
              AStatus.active, "c1"⟩ then
        b.id = a.id ∧ b.touristId = a.touristId ∧
        b.guideId = "g9" ∧ b.tourName = a.tourName ∧
        b.startDate = a.startDate ∧ b.endDate = a.endDate ∧
        b.status = a.status ∧ b.createdAt = a.createdAt
      else b = a)
      [⟨"A1", "t1", "g1", "Old Tour", "2024-01-01", "2024-01-05",
        AStatus.active, "c1"⟩,
       ⟨"A2", "t2", "g2", "Tour Two", "2024-02-01", "2024-02-05",
        AStatus.pending, "c2"⟩]
      (handleReassignGuide
        { assignments :=
            [⟨"A1", "t1", "g1", "Old Tour", "2024-01-01", "2024-01-05",
              AStatus.active, "c1"⟩,
             ⟨"A2", "t2", "g2", "Tour Two", "2024-02-01", "2024-02-05",
              AStatus.pending, "c2"⟩]
          reassignmentTouristId := "t1", reassignmentNewGuideId := "g9"
          nowMs := 0, freshId := "F" } false).assignments :=
  handleReassignGuide_existing_frame
    { assignments :=
        [⟨"A1", "t1", "g1", "Old Tour", "2024-01-01", "2024-01-05",
          AStatus.active, "c1"⟩,
         ⟨"A2", "t2", "g2", "Tour Two", "2024-02-01", "2024-02-05",
          AStatus.pending, "c2"⟩]
      reassignmentTouristId := "t1", reassignmentNewGuideId := "g9"
      nowMs := 0, freshId := "F" }
    ⟨"A1", "t1", "g1", "Old Tour", "2024-01-01", "2024-01-05",
      AStatus.active, "c1"⟩
    (by decide) (by decide) (by decide) (by decide)

/-- C2: for a tourist with no assignment in the local list,
`handleReassignGuide` inserts exactly one new row with status active, the
hard-coded tour name AlUla Heritage Tour, a start date on the call day and an
end date seven days later (the added span of 7 times 86,400,000 ms advances
the UTC day index by exactly 7), and appends exactly that row to the local
list. -/
theorem handleReassignGuide_creates_default
    (inp : ReassignInput)
    (hg : inp.reassignmentNewGuideId ≠ "")
    (ht : inp.reassignmentTouristId ≠ "")
    (hfind : inp.assignments.find?
        (fun a => a.touristId = inp.reassignmentTouristId) = none) :
    (handleReassignGuide inp false).effects =
      [StoreEffect.insertAssignment inp.reassignmentTouristId
        inp.reassignmentNewGuideId "AlUla Heritage Tour"
        (isoDate inp.nowMs) (isoDate (inp.nowMs + 7 * 24 * 60 * 60 * 1000))
        AStatus.active,
       StoreEffect.refetchAssignments, StoreEffect.refetchGuideRequests] ∧
    (∃ a : Assignment,
      (handleReassignGuide inp false).assignments = inp.assignments ++ [a] ∧
      a.touristId = inp.reassignmentTouristId ∧
      a.guideId = inp.reassignmentNewGuideId ∧
      a.tourName = "AlUla Heritage Tour" ∧
      a.status = AStatus.active ∧
      a.startDate = isoDate inp.nowMs ∧
      a.endDate = isoDate (inp.nowMs + 7 * 24 * 60 * 60 * 1000)) ∧
    epochDay (inp.nowMs + 7 * 24 * 60 * 60 * 1000) = epochDay inp.nowMs + 7 := by
  have hcond : ¬ (inp.reassignmentNewGuideId = "" ∨
      inp.reassignmentTouristId = "") := by
    simp [hg, ht]
  have hres : handleReassignGuide inp false =
      { effects :=
          [StoreEffect.insertAssignment inp.reassignmentTouristId
            inp.reassignmentNewGuideId "AlUla Heritage Tour"
            (isoDate inp.nowMs)
            (isoDate (inp.nowMs + 7 * 24 * 60 * 60 * 1000)) AStatus.active,
           StoreEffect.refetchAssignments, StoreEffect.refetchGuideRequests]
        assignments := inp.assignments ++
          [{ id := inp.freshId
             touristId := inp.reassignmentTouristId
             guideId := inp.reassignmentNewGuideId
             tourName := "AlUla Heritage Tour"
             startDate := isoDate inp.nowMs
             endDate := isoDate (inp.nowMs + 7 * 24 * 60 * 60 * 1000)
             status := AStatus.active
             createdAt := toString inp.nowMs }]
        dialogOpen := false
        toast := ⟨"Success", "Tour guide assigned successfully!", false⟩ } := by
    unfold handleReassignGuide
    rw [if_neg hcond, hfind]
    rfl
  rw [hres]
  refine ⟨rfl, ⟨_, rfl, rfl, rfl, rfl, rfl, rfl, rfl⟩, ?_⟩
  unfold epochDay msPerDay
  omega

/-- Witness for C2: an empty local list; reassigning tourist t1 to guide g9
at epoch millisecond 1,760,227,200,123 creates the default seven-day tour. -/
theorem handleReassignGuide_creates_default_witness :
    (handleReassignGuide
        { assignments := [], reassignmentTouristId := "t1"
          reassignmentNewGuideId := "g9", nowMs := 1760227200123
          freshId := "F" } false).effects =
      [StoreEffect.insertAssignment "t1" "g9" "AlUla Heritage Tour"
        (isoDate 1760227200123)
        (isoDate (1760227200123 + 7 * 24 * 60 * 60 * 1000)) AStatus.active,
       StoreEffect.refetchAssignments, StoreEffect.refetchGuideRequests] ∧
    (∃ a : Assignment,
      (handleReassignGuide
          { assignments := [], reassignmentTouristId := "t1"
            reassignmentNewGuideId := "g9", nowMs := 1760227200123
            freshId := "F" } false).assignments =
        ([] : List Assignment) ++ [a] ∧
      a.touristId = "t1" ∧
      a.guideId = "g9" ∧
      a.tourName = "AlUla Heritage Tour" ∧
      a.status = AStatus.active ∧
      a.startDate = isoDate 1760227200123 ∧
      a.endDate = isoDate (1760227200123 + 7 * 24 * 60 * 60 * 1000)) ∧
    epochDay (1760227200123 + 7 * 24 * 60 * 60 * 1000) =
      epochDay 1760227200123 + 7 :=
  handleReassignGuide_creates_default
    { assignments := [], reassignmentTouristId := "t1"
      reassignmentNewGuideId := "g9", nowMs := 1760227200123, freshId := "F" }
    (by decide) (by decide) (by decide)

/-- C3 counterexample: a tourist with two fetched matching rows, active
first and pending second.  A fetched assignment row with the tourist's id and
status active exists, yet the derived status is pending, not assigned —
because the map entry is overwritten by the later pending row. -/
theorem fetchTourists_status_counterexample :
    (∃ r ∈ fetchedAssignmentRows
        [⟨"t", AStatus.active, "g1", some "G One"⟩,
         ⟨"t", AStatus.pending, "g2", some "G Two"⟩],
      r.tourist_id = "t" ∧ r.status = AStatus.active) ∧
    (fetchTourists [⟨"t", some "Aisha", none, none, none⟩]
        [⟨"t", AStatus.active, "g1", some "G One"⟩,
         ⟨"t", AStatus.pending, "g2", some "G Two"⟩]).map Tourist.status =
      [TStatus.pending] := by
  decide

/-- C3 amended: the derived status is determined by the LAST fetched
assignment row (with status pending or active) carrying the tourist's id:
none gives active; a last row with status active gives assigned with that
row's guide name (join-defaulted); a last row with status pending gives
pending. -/
theorem fetchTourists_status_lastRow
    (profiles : List Profile) (db : List AssignmentRow) (p : Profile)
    (hp : p ∈ profiles) :
    formatTourist (assignmentMap (fetchedAssignmentRows db)) p ∈
      fetchTourists profiles db ∧
    (match lastMatch p.id (fetchedAssignmentRows db) with
     | none =>
       (formatTourist (assignmentMap (fetchedAssignmentRows db)) p).status =
         TStatus.active
     | some r =>
       (r.status = AStatus.active →
         (formatTourist (assignmentMap (fetchedAssignmentRows db)) p).status =
           TStatus.assigned ∧
         (formatTourist (assignmentMap (fetchedAssignmentRows db))
             p).assignedGuide = jsStrOr r.guideName "Unknown Guide") ∧
       (r.status = AStatus.pending →
         (formatTourist (assignmentMap (fetchedAssignmentRows db)) p).status =
           TStatus.pending)) := by
  refine ⟨List.mem_map_of_mem _ hp, ?_⟩
  have h := assignmentMap_apply (fetchedAssignmentRows db) p.id
  cases hl : lastMatch p.id (fetchedAssignmentRows db) with
  | none =>
    rw [hl] at h
    unfold formatTourist
    simp [h]
  | some r =>
    rw [hl] at h
    constructor
    · intro hact
      unfold formatTourist
      simp [h, assignmentInfoOfRow, hact, jsStrOr, jsOr_empty_right]
    · intro hpend
      unfold formatTourist
      simp [h, assignmentInfoOfRow, hpend]

/-- Witness for C3 amended: one tourist, one pending fetched row. -/
theorem fetchTourists_status_lastRow_witness :
    formatTourist
      (assignmentMap (fetchedAssignmentRows
        [⟨"t", AStatus.pending, "g1", some "G One"⟩]))
      ⟨"t", some "Aisha", none, none, none⟩ ∈
      fetchTourists [⟨"t", some "Aisha", none, none, none⟩]
        [⟨"t", AStatus.pending, "g1", some "G One"⟩] ∧
    (match lastMatch "t" (fetchedAssignmentRows
        [⟨"t", AStatus.pending, "g1", some "G One"⟩]) with
     | none =>
       (formatTourist
         (assignmentMap (fetchedAssignmentRows
           [⟨"t", AStatus.pending, "g1", some "G One"⟩]))
         ⟨"t", some "Aisha", none, none, none⟩).status = TStatus.active
     | some r =>
       (r.status = AStatus.active →
         (formatTourist
           (assignmentMap (fetchedAssignmentRows
             [⟨"t", AStatus.pending, "g1", some "G One"⟩]))
           ⟨"t", some "Aisha", none, none, none⟩).status = TStatus.assigned ∧
         (formatTourist
           (assignmentMap (fetchedAssignmentRows
             [⟨"t", AStatus.pending, "g1", some "G One"⟩]))
           ⟨"t", some "Aisha", none, none, none⟩).assignedGuide =
           jsStrOr r.guideName "Unknown Guide") ∧
       (r.status = AStatus.pending →
         (formatTourist
           (assignmentMap (fetchedAssignmentRows
             [⟨"t", AStatus.pending, "g1", some "G One"⟩]))
           ⟨"t", some "Aisha", none, none, none⟩).status = TStatus.pending)) :=
  fetchTourists_status_lastRow
    [⟨"t", some "Aisha", none, none, none⟩]
    [⟨"t", AStatus.pending, "g1", some "G One"⟩]
    ⟨"t", some "Aisha", none, none, none⟩
    (by decide)

/-- C9: for a tourist sign-up that passes validation and whose auth call
returns both a user and a session, `handleSignUp` upserts exactly one profile
row carrying user_type tourist, the new user's id, the trimmed full name and
the trimmed phone number; a failing upsert only gets logged — the whole
result is independent of the upsert outcome and the sign-up completes with
loginSuccess. -/
theorem handleSignUp_upserts_tourist_profile
    (st : SignUpState) (uid : String) (upsertFails : Bool)
    (hv : validateInput true st = true) :
    (handleSignUp st (SignUpAuthResult.ok (some uid) true) upsertFails).outcome
      = SignUpOutcome.loginSuccess uid ∧
    (handleSignUp st (SignUpAuthResult.ok (some uid) true) upsertFails).effects
      = [SignUpEffect.authSignUp st.identifier st.password "tourist"
          (jsTrim st.fullName) (jsTrim st.phoneNumber),
         SignUpEffect.profileUpsert
           { id := uid
             user_type := "tourist"
             full_name := jsTrim st.fullName
             phone_number := jsTrim st.phoneNumber
             contact_info :=
               if st.method = AuthMethod.phone then st.identifier
               else st.phoneNumber }] ∧
    handleSignUp st (SignUpAuthResult.ok (some uid) true) true =
      handleSignUp st (SignUpAuthResult.ok (some uid) true) false := by
  have hcond : ¬ ¬ validateInput true st = true := by simp [hv]
  unfold handleSignUp
  rw [if_neg hcond]
  exact ⟨rfl, rfl, rfl⟩

/-- Witness for C9 at a concrete valid email sign-up whose profile upsert
fails. -/
theorem handleSignUp_upserts_tourist_profile_witness :
    (handleSignUp
        ⟨"a@b.c", "secret1", "secret1", " Aisha ", "0501234567",
          AuthMethod.email⟩
        (SignUpAuthResult.ok (some "u1") true) true).outcome =
      SignUpOutcome.loginSuccess "u1" ∧
    (handleSignUp
        ⟨"a@b.c", "secret1", "secret1", " Aisha ", "0501234567",
          AuthMethod.email⟩
        (SignUpAuthResult.ok (some "u1") true) true).effects =
      [SignUpEffect.authSignUp "a@b.c" "secret1" "tourist"
        (jsTrim " Aisha ") (jsTrim "0501234567"),
       SignUpEffect.profileUpsert
         { id := "u1"
           user_type := "tourist"
           full_name := jsTrim " Aisha "
           phone_number := jsTrim "0501234567"
           contact_info :=
             if (AuthMethod.email : AuthMethod) = AuthMethod.phone
             then "a@b.c" else "0501234567" }] ∧
    handleSignUp
        ⟨"a@b.c", "secret1", "secret1", " Aisha ", "0501234567",
          AuthMethod.email⟩
        (SignUpAuthResult.ok (some "u1") true) true =
      handleSignUp
        ⟨"a@b.c", "secret1", "secret1", " Aisha ", "0501234567",
          AuthMethod.email⟩
        (SignUpAuthResult.ok (some "u1") true) false :=
  handleSignUp_upserts_tourist_profile
    ⟨"a@b.c", "secret1", "secret1", " Aisha ", "0501234567",
      AuthMethod.email⟩
    "u1" true (by decide)

/-- C10: the two lookups pick different rows.  For all inputs the fold that
builds assignmentMap keeps the LAST fetched row per tourist id, while
handleReassignGuide acts on the FIRST matching local assignment: at the
concrete two-assignment input below the reassignment updates row A1 (guide
g1) while the fetched view derives assignedGuide from the last row (guide
name G Two), so the two paths disagree on which assignment is current. -/
theorem assignmentMap_last_vs_find_first :
    (∀ (rows : List AssignmentRow) (t : String),
      assignmentMap rows t = (lastMatch t rows).map assignmentInfoOfRow) ∧
    ([(⟨"A1", "t", "g1", "T1", "s", "e", AStatus.active, "c1"⟩ : Assignment),
      ⟨"A2", "t", "g2", "T2", "s", "e", AStatus.active, "c2"⟩].find?
        (fun a => a.touristId = "t")).map Assignment.id = some "A1" ∧
    (handleReassignGuide
        { assignments :=
            [⟨"A1", "t", "g1", "T1", "s", "e", AStatus.active, "c1"⟩,
             ⟨"A2", "t", "g2", "T2", "s", "e", AStatus.active, "c2"⟩]
          reassignmentTouristId := "t", reassignmentNewGuideId := "g9"
          nowMs := 0, freshId := "F" } false).effects.head? =
      some (StoreEffect.updateAssignmentGuide "A1" "g9") ∧
    (lastMatch "t" (fetchedAssignmentRows
        [⟨"t", AStatus.active, "g1", some "G One"⟩,
         ⟨"t", AStatus.active, "g2", some "G Two"⟩])).map
      AssignmentRow.guide_id = some "g2" ∧
    (fetchTourists [⟨"t", some "Aisha", none, none, none⟩]
        [⟨"t", AStatus.active, "g1", some "G One"⟩,
         ⟨"t", AStatus.active, "g2", some "G Two"⟩]).map
      Tourist.assignedGuide = ["G Two"] := by
  refine ⟨fun rows t => assignmentMap_apply rows t, ?_, ?_, ?_, ?_⟩ <;> decide

end AlUla
